import Mathlib

/-!
Verification of the decision-maker-20 repository: a shallow embedding of the
client-side decision-flow state machine (src/App.tsx and its variant
src/unnamed/part_000) and of the generation-client layer (src/geminiService.ts,
two variants), together with theorems settling the frozen claims about them.

Conventions of the embedding:
- React state is a record; each event handler becomes a pure function from the
  record to the record (batched setState calls are one record update).
- The asynchronous backend call is external: its outcome (the response text,
  and the outcome of JSON.parse on it) is passed to the embedded function as an
  explicit parameter.
- A thrown JS Error carries a message that may be undefined, so a caught error
  is modelled as Option String (none = no message); JS truthiness of a string
  is the test against the empty string.
-/

/-- Stage enumeration, from src/types.ts (enum AppStage). -/
inductive AppStage where
  | START
  | GENERATING_QUESTIONS
  | ANSWERING
  | ANALYZING
  | RESULT
deriving Repr, DecidableEq

/-- Question shape, from src/types.ts (interface Question). -/
structure Question where
  id : Int
  text : String
  options : List String
deriving Repr, DecidableEq

/-- The answers record (Record from number to string in src): an association
list from question id to the chosen option, later entries shadowed out on
insertion as a JS object spread would overwrite the key. -/
abbrev AnswerMap : Type := List (Int × String)

/-- Reading answers at a key, as the JS indexing expression does: the value
when the key is present, undefined (none) otherwise. -/
def lookupAnswer (m : AnswerMap) (qid : Int) : Option String :=
  (List.find? (fun p => p.1 == qid) m).map (fun p => p.2)

/-- Writing one answer, as the object spread in handleAnswer does: the key is
bound to the new option, any older binding for the key is gone. -/
def insertAnswer (m : AnswerMap) (qid : Int) (v : String) : AnswerMap :=
  (qid, v) :: List.filter (fun p => p.1 != qid) m

/-- Test whether the second character list begins the first one. -/
def charsBeginWith : List Char → List Char → Bool
  | _, [] => true
  | [], _ :: _ => false
  | a :: as, b :: bs => (a == b) && charsBeginWith as bs

/-- Test whether the second character list occurs inside the first one. -/
def charsContain (s pat : List Char) : Bool :=
  match s with
  | [] => charsBeginWith [] pat
  | _ :: rest => charsBeginWith s pat || charsContain rest pat

/-- JS String.prototype.includes, as used by the catch handlers. -/
def strIncludes (s pat : String) : Bool :=
  charsContain s.toList pat.toList

/-- JS whitespace test for the characters String.prototype.trim removes (the
common ASCII ones, which cover every string appearing in this code). -/
def isJsSpace (c : Char) : Bool :=
  c == ' ' || c == '\t' || c == '\n' || c == '\r'

/-- JS String.prototype.trim, as used by the topic guard and the key guards:
drop whitespace from both ends. -/
def jsTrim (s : String) : String :=
  (((s.toList.dropWhile isJsSpace).reverse.dropWhile isJsSpace).reverse).asString

/-- Structured analysis payload, from the AnalysisResult consumed by
src/unnamed/part_000 (fields finalRecommendation, summary, reasoning, pros,
cons, nextSteps), matching the data model of the specification. -/
structure AnalysisResult where
  finalRecommendation : String
  summary : String
  reasoning : List String
  pros : List String
  cons : List String
  nextSteps : List String
deriving Repr, DecidableEq

/-- Component state of the first App variant in src/App.tsx: the useState
hooks stage, topic, questions, answers, currentIndex, loadingMessage, result,
error, needsKey. -/
structure AppState where
  stage : AppStage
  topic : String
  questions : List Question
  answers : AnswerMap
  currentIndex : Nat
  loadingMessage : String
  result : Option String
  error : Option String
  needsKey : Bool
deriving Repr, DecidableEq

/-- Component state of the src/unnamed/part_000 App variant: same hooks except
that the result hook holds a structured AnalysisResult (analysis) and there is
no needsKey hook. -/
structure P0State where
  stage : AppStage
  topic : String
  questions : List Question
  answers : AnswerMap
  currentIndex : Nat
  loadingMessage : String
  analysis : Option AnalysisResult
  error : Option String
deriving Repr, DecidableEq

/-- The useState initial values of the first App variant in src/App.tsx. -/
def initialAppState : AppState :=
  { stage := .START
    topic := ""
    questions := []
    answers := []
    currentIndex := 0
    loadingMessage := ""
    result := none
    error := none
    needsKey := false }

/-- The useState initial values of the src/unnamed/part_000 variant. -/
def initialP0State : P0State :=
  { stage := .START
    topic := ""
    questions := []
    answers := []
    currentIndex := 0
    loadingMessage := ""
    analysis := none
    error := none }

/-- String constants thrown or displayed by the code (src/App.tsx variant 1
and src/geminiService.ts), kept verbatim. -/
def entityNotFoundPat : String := "Requested entity was not found."

def keyRetryMsgV1 : String := "API 키를 찾을 수 없거나 결제 설정이 필요합니다. 다시 선택해주세요."

def genericErrMsgV1 : String := "오류가 발생했습니다."

def analyzeGenericMsgV1 : String := "분석 중 오류가 발생했습니다."

def genLoadingMsgV1 : String := "결정을 위한 20가지 맞춤 질문을 생성하고 있습니다..."

def analyzeLoadingMsgV1 : String := "답변을 분석하여 최적의 결론을 도출하는 중입니다..."

def analyzeErrMsgP0 : String := "결과를 분석하는 과정에서 문제가 발생했습니다. 다시 시도해주세요."

def analyzeLoadingMsgP0 : String := "당신의 모든 답변을 종합하여 최적의 솔루션을 설계 중입니다..."

/-- JS truthiness test of a caught error message (err.message truthy means
present and non-empty). -/
def truthyMsg : Option String → Bool
  | some t => t != ""
  | none => false

/-- The condition of the catch handlers in src/App.tsx variant 1: err.message
is truthy and includes the entity-not-found phrase. -/
def msgIsEntityNotFound (m : Option String) : Bool :=
  match m with
  | some t => (t != "") && strIncludes t entityNotFoundPat
  | none => false

/-- The expression err.message or-else a default, as in the catch handlers. -/
def msgOrDefault (m : Option String) (dflt : String) : String :=
  match m with
  | some t => if t == "" then dflt else t
  | none => dflt

/-- startDecisionProcess of src/App.tsx variant 1 (lines 53-74), as a function
of the state and of the awaited outcome of generateQuestions: a no-op when the
topic is blank; otherwise it clears the error, enters GENERATING_QUESTIONS
with the loading message, then on success installs the questions and enters
ANSWERING at index 0, and on failure branches on the entity-not-found phrase
(distinct message plus needsKey) or stores the message (or a generic default)
and returns to START. -/
def startDecisionProcessV1 (s : AppState)
    (outcome : Except (Option String) (List Question)) : AppState :=
  if jsTrim s.topic == "" then s
  else
    let s1 : AppState :=
      { s with error := none, stage := .GENERATING_QUESTIONS,
               loadingMessage := genLoadingMsgV1 }
    match outcome with
    | .ok qs => { s1 with questions := qs, stage := .ANSWERING, currentIndex := 0 }
    | .error m =>
      if msgIsEntityNotFound m then
        { s1 with error := some keyRetryMsgV1, needsKey := true, stage := .START }
      else
        { s1 with error := some (msgOrDefault m genericErrMsgV1), stage := .START }

/-- The synchronous head of finishAnswering (src/App.tsx variant 1, lines
94-96): enter ANALYZING with the loading message before awaiting the backend. -/
def finishAnsweringStartV1 (s : AppState) : AppState :=
  { s with stage := .ANALYZING, loadingMessage := analyzeLoadingMsgV1 }

/-- The continuation of finishAnswering (src/App.tsx variant 1, lines 97-110)
after analyzeDecision resolves: store the result and enter RESULT on success;
on failure branch on the entity-not-found phrase (distinct message plus
needsKey) or store the message (or the generic analysis default), returning to
START either way. -/
def finishAnsweringCompleteV1 (s : AppState)
    (outcome : Except (Option String) String) : AppState :=
  match outcome with
  | .ok r => { s with result := some r, stage := .RESULT }
  | .error m =>
    if msgIsEntityNotFound m then
      { s with error := some keyRetryMsgV1, needsKey := true, stage := .START }
    else
      { s with error := some (msgOrDefault m analyzeGenericMsgV1), stage := .START }

/-- Whole finishAnswering of src/App.tsx variant 1: the synchronous entry into
ANALYZING followed by the completion handler. -/
def finishAnsweringV1 (s : AppState)
    (outcome : Except (Option String) String) : AppState :=
  finishAnsweringCompleteV1 (finishAnsweringStartV1 s) outcome

/-- handleAnswer (src/App.tsx lines 76-78, identical in every variant): record
the chosen option under the current question's id. The out-of-bounds branch is
unreachable in the rendered ANSWERING stage. -/
def handleAnswerV1 (s : AppState) (opt : String) : AppState :=
  match s.questions[s.currentIndex]? with
  | some q => { s with answers := insertAnswer s.answers q.id opt }
  | none => s

/-- handleNext (src/App.tsx lines 80-86, identical in every variant): advance
the index while below length - 1, otherwise start finishAnswering. The
comparison is JS number arithmetic, hence the cast to Int. -/
def handleNextV1 (s : AppState) : AppState :=
  if (s.currentIndex : Int) < (s.questions.length : Int) - 1 then
    { s with currentIndex := s.currentIndex + 1 }
  else
    finishAnsweringStartV1 s

/-- handlePrev (src/App.tsx lines 88-92, identical in every variant): step the
index back when positive, otherwise do nothing. -/
def handlePrevV1 (s : AppState) : AppState :=
  if s.currentIndex > 0 then { s with currentIndex := s.currentIndex - 1 } else s

/-- The disabled condition of the next button (src/App.tsx line 272): the
answers record has no truthy entry for the current question's id. -/
def nextButtonDisabledV1 (s : AppState) : Bool :=
  match s.questions[s.currentIndex]? with
  | some q =>
    match lookupAnswer s.answers q.id with
    | some a => a == ""
    | none => true
  | none => true

/-- The advance operation as the user can trigger it: handleNext guarded by
the button's disabled condition (a disabled button fires no handler). -/
def tryNextV1 (s : AppState) : AppState :=
  if nextButtonDisabledV1 s then s else handleNextV1 s

/-- resetApp of src/App.tsx variant 1 (lines 113-121): reset stage, topic,
questions, answers, currentIndex, result and error to their initial values. -/
def resetAppV1 (s : AppState) : AppState :=
  { s with stage := .START, topic := "", questions := [], answers := [],
           currentIndex := 0, result := none, error := none }

/-- resetApp of src/unnamed/part_000 (lines 97-105): same fields, with the
structured analysis in place of the string result. -/
def resetAppP0 (s : P0State) : P0State :=
  { s with stage := .START, topic := "", questions := [], answers := [],
           currentIndex := 0, analysis := none, error := none }

/-- The synchronous head of finishAnswering in src/unnamed/part_000 (lines
84-86). -/
def finishAnsweringStartP0 (s : P0State) : P0State :=
  { s with stage := .ANALYZING, loadingMessage := analyzeLoadingMsgP0 }

/-- The continuation of finishAnswering in src/unnamed/part_000 (lines 87-94):
store the analysis and enter RESULT on success; on any failure store the one
generic analysis message and return to START (no branch on the failure). -/
def finishAnsweringCompleteP0 (s : P0State)
    (outcome : Except (Option String) AnalysisResult) : P0State :=
  match outcome with
  | .ok r => { s with analysis := some r, stage := .RESULT }
  | .error _ => { s with error := some analyzeErrMsgP0, stage := .START }

/-- Whole finishAnswering of src/unnamed/part_000. -/
def finishAnsweringP0 (s : P0State)
    (outcome : Except (Option String) AnalysisResult) : P0State :=
  finishAnsweringCompleteP0 (finishAnsweringStartP0 s) outcome

/-- JSON values, shape-level model of what JSON.parse can yield (numbers
collapsed to Int, which suffices for the integer-id schema checks here). -/
inductive Json where
  | null
  | bool (b : Bool)
  | num (n : Int)
  | str (s : String)
  | arr (elems : List Json)
  | obj (fields : List (String × Json))
deriving Repr

/-- Field lookup in a JSON object. -/
def lookupField (fields : List (String × Json)) (k : String) : Option Json :=
  (List.find? (fun p => p.1 == k) fields).map (fun p => p.2)

/-- Whether a JSON value is a string. -/
def isStringJson : Json → Bool
  | .str _ => true
  | _ => false

/-- Whether a JSON value is an integer number. -/
def isIntegerJson : Json → Bool
  | .num _ => true
  | _ => false

/-- Whether a JSON value is an array of strings. -/
def isStringArrayJson : Json → Bool
  | .arr xs => xs.all isStringJson
  | _ => false

/-- Whether a JSON value is an object with the three required fields of the
responseSchema declared in generateQuestions (src/geminiService.ts lines
29-44): integer id, string text, string-array options. -/
def matchesQuestionObj : Json → Bool
  | .obj fields =>
    (match lookupField fields "id" with
     | some v => isIntegerJson v
     | none => false) &&
    (match lookupField fields "text" with
     | some v => isStringJson v
     | none => false) &&
    (match lookupField fields "options" with
     | some v => isStringArrayJson v
     | none => false)
  | _ => false

/-- Whether a JSON value matches the declared question-array response schema:
an array whose every element matches the question object shape. -/
def matchesDeclaredQuestionSchema : Json → Bool
  | .arr xs => xs.all matchesQuestionObj
  | _ => false

/-- JS falsiness of the response text (undefined or the empty string), the
guard on responseText in both generateQuestions variants. -/
def isFalsyText : Option String → Bool
  | some s => s == ""
  | none => true

/-- Error messages thrown by the two geminiService.ts variants, verbatim. -/
def missingKeyMsgV1 : String := "API 키가 설정되지 않았습니다. Vercel 프로젝트 설정에서 API_KEY 환경 변수를 확인해주세요."

def emptyRespMsgV1 : String := "질문을 생성하는 도중 오류가 발생했습니다. AI 응답이 비어있습니다."

def parseErrMsgV1 : String := "질문 데이터를 해석하는 도중 오류가 발생했습니다."

def missingKeyMsgV2 : String := "서비스 구성이 완료되지 않았습니다. 잠시 후 다시 시도해주세요."

def emptyRespMsgV2 : String := "분석을 위한 질문을 생성하지 못했습니다."

def parseErrMsgV2 : String := "데이터 해석 중 오류가 발생했습니다."

/-- The fallback string analyzeDecision substitutes for an empty response in
both variants. -/
def analyzeFallback : String := "결과를 도출할 수 없습니다."

/-- The guard of getAIInstance (src/geminiService.ts variant 1 lines 8-14):
the key is missing when it is undefined, falsy (empty), or blank after
trimming. The literal string undefined is NOT checked by this variant. -/
def isKeyMissingV1 : Option String → Bool
  | none => true
  | some k => k == "" || jsTrim k == ""

/-- The guard of createAI (src/geminiService.ts variant 2 lines 95-101): the
key is missing when it is undefined, falsy, the literal string undefined, or
blank after trimming. -/
def isKeyMissingV2 : Option String → Bool
  | none => true
  | some k => k == "" || k == "undefined" || jsTrim k == ""

/-- Modelled from the spec (section 6, Environment configuration): the
credential is absent exactly when it is undefined, the literal placeholder
string undefined, or blank after trimming. Stated here in the spec's words to
be compared with the source guards isKeyMissingV1 and isKeyMissingV2. -/
def specAbsentCredential : Option String → Bool
  | none => true
  | some k => k == "undefined" || jsTrim k == ""

/-- Failure classification of the generation client: each constructor tags one
throw site of geminiService.ts, carrying the thrown message verbatim. -/
inductive SvcError where
  | missingKey (msg : String)
  | emptyResponse (msg : String)
  | parseError (msg : String)
deriving Repr, DecidableEq

/-- The message a caught JS Error would surface from a service failure. -/
def SvcError.message : SvcError → String
  | .missingKey m => m
  | .emptyResponse m => m
  | .parseError m => m

/-- generateQuestions of src/geminiService.ts variant 1 (lines 16-61), as a
function of the configured credential, the backend response text (the request
itself is external) and the outcome of JSON.parse on that text (none when the
parse throws). The key check runs before the backend call; a falsy response
text raises the empty-response error; a parse failure raises the parse error;
otherwise the parsed value is returned as-is with no schema validation. -/
def generateQuestionsV1 (apiKey : Option String) (responseText : Option String)
    (parsed : Option Json) : Except SvcError Json :=
  if isKeyMissingV1 apiKey then .error (.missingKey missingKeyMsgV1)
  else if isFalsyText responseText then .error (.emptyResponse emptyRespMsgV1)
  else
    match parsed with
    | none => .error (.parseError parseErrMsgV1)
    | some j => .ok j

/-- generateQuestions of src/geminiService.ts variant 2 (lines 103-145): same
control flow as variant 1, with the variant-2 key guard and messages. -/
def generateQuestionsV2 (apiKey : Option String) (responseText : Option String)
    (parsed : Option Json) : Except SvcError Json :=
  if isKeyMissingV2 apiKey then .error (.missingKey missingKeyMsgV2)
  else if isFalsyText responseText then .error (.emptyResponse emptyRespMsgV2)
  else
    match parsed with
    | none => .error (.parseError parseErrMsgV2)
    | some j => .ok j

/-- analyzeDecision of src/geminiService.ts variant 1 (lines 63-86): after the
key check it returns the response text, or the fallback string when the text
is falsy; it never throws on an empty response. -/
def analyzeDecisionV1 (apiKey : Option String)
    (responseText : Option String) : Except SvcError String :=
  if isKeyMissingV1 apiKey then .error (.missingKey missingKeyMsgV1)
  else
    .ok (match responseText with
         | some t => if t == "" then analyzeFallback else t
         | none => analyzeFallback)

/-- analyzeDecision of src/geminiService.ts variant 2 (lines 147-170): same
body as variant 1 with the variant-2 key guard and message. -/
def analyzeDecisionV2 (apiKey : Option String)
    (responseText : Option String) : Except SvcError String :=
  if isKeyMissingV2 apiKey then .error (.missingKey missingKeyMsgV2)
  else
    .ok (match responseText with
         | some t => if t == "" then analyzeFallback else t
         | none => analyzeFallback)

/-- Sample concrete data used by witness theorems. -/
def sampleQuestion1 : Question := { id := 1, text := "Q1", options := ["a", "b", "c"] }

def sampleQuestion2 : Question := { id := 2, text := "Q2", options := ["d", "e", "f"] }

/-- A concrete ANSWERING state over two questions, no answer recorded yet. -/
def sampleAnswering : AppState :=
  { stage := .ANSWERING
    topic := "t"
    questions := [sampleQuestion1, sampleQuestion2]
    answers := []
    currentIndex := 0
    loadingMessage := ""
    result := none
    error := none
    needsKey := false }

/-- A concrete ANSWERING state of the part_000 variant. -/
def sampleAnsweringP0 : P0State :=
  { stage := .ANSWERING
    topic := "t"
    questions := [sampleQuestion1, sampleQuestion2]
    answers := [(1, "a"), (2, "d")]
    currentIndex := 1
    loadingMessage := ""
    analysis := none
    error := none }

/-- Claim C1: in ANSWERING over N questions the index stays in [0, N-1]:
handleNext below the last index increments the index and stays in ANSWERING,
handleNext at the last index N-1 moves to ANALYZING leaving the index as it
is, handlePrev at index 0 leaves the state unchanged, and from any in-bounds
index both handlers keep the index at most N-1. -/
theorem answering_index_invariant (s : AppState) (N : Nat)
    (hstage : s.stage = .ANSWERING) (hlen : s.questions.length = N)
    (hN : 0 < N) :
    (s.currentIndex < N - 1 →
      handleNextV1 s = { s with currentIndex := s.currentIndex + 1 } ∧
      (handleNextV1 s).stage = .ANSWERING) ∧
    (s.currentIndex = N - 1 →
      (handleNextV1 s).stage = .ANALYZING ∧
      (handleNextV1 s).currentIndex = s.currentIndex) ∧
    (s.currentIndex = 0 → handlePrevV1 s = s) ∧
    (s.currentIndex < N →
      (handleNextV1 s).currentIndex ≤ N - 1 ∧
      (handlePrevV1 s).currentIndex ≤ N - 1) := by
  refine ⟨?_, ?_, ?_, ?_⟩
  · intro hlt
    have hc : (s.currentIndex : Int) < (s.questions.length : Int) - 1 := by omega
    constructor
    · unfold handleNextV1
      rw [if_pos hc]
    · unfold handleNextV1
      rw [if_pos hc]
      exact hstage
  · intro heq
    have hc : ¬ (s.currentIndex : Int) < (s.questions.length : Int) - 1 := by omega
    unfold handleNextV1
    rw [if_neg hc]
    exact ⟨rfl, rfl⟩
  · intro h0
    unfold handlePrevV1
    simp [h0]
  · intro hlt
    constructor
    · unfold handleNextV1
      by_cases hc : (s.currentIndex : Int) < (s.questions.length : Int) - 1
      · rw [if_pos hc]
        show s.currentIndex + 1 ≤ N - 1
        omega
      · rw [if_neg hc]
        show s.currentIndex ≤ N - 1
        omega
    · unfold handlePrevV1
      by_cases hc : s.currentIndex > 0
      · rw [if_pos hc]
        show s.currentIndex - 1 ≤ N - 1
        omega
      · rw [if_neg hc]
        show s.currentIndex ≤ N - 1
        omega

/-- Claim C1 witness: the invariant evaluated on the concrete two-question
ANSWERING state at index 0. -/
theorem answering_index_invariant_witness :
    sampleAnswering.stage = .ANSWERING ∧
    sampleAnswering.questions.length = 2 ∧
    0 < 2 ∧
    ((sampleAnswering.currentIndex < 2 - 1 →
      handleNextV1 sampleAnswering =
        { sampleAnswering with currentIndex := sampleAnswering.currentIndex + 1 } ∧
      (handleNextV1 sampleAnswering).stage = .ANSWERING) ∧
    (sampleAnswering.currentIndex = 2 - 1 →
      (handleNextV1 sampleAnswering).stage = .ANALYZING ∧
      (handleNextV1 sampleAnswering).currentIndex = sampleAnswering.currentIndex) ∧
    (sampleAnswering.currentIndex = 0 → handlePrevV1 sampleAnswering = sampleAnswering) ∧
    (sampleAnswering.currentIndex < 2 →
      (handleNextV1 sampleAnswering).currentIndex ≤ 2 - 1 ∧
      (handlePrevV1 sampleAnswering).currentIndex ≤ 2 - 1)) :=
  ⟨rfl, rfl, by decide,
    answering_index_invariant sampleAnswering 2 rfl rfl (by decide)⟩

/-- Claim C2: in ANSWERING, when the answer map has no entry for the current
question's id, the guarded advance operation is a no-op: the state is
unchanged (in particular stage, index and answer map). -/
theorem advance_rejected_without_answer (s : AppState)
    (hstage : s.stage = .ANSWERING)
    (hlt : s.currentIndex < s.questions.length)
    (hno : lookupAnswer s.answers (s.questions.get ⟨s.currentIndex, hlt⟩).id = none) :
    tryNextV1 s = s ∧
    (tryNextV1 s).stage = .ANSWERING ∧
    (tryNextV1 s).currentIndex = s.currentIndex ∧
    (tryNextV1 s).answers = s.answers := by
  have hq : s.questions[s.currentIndex]? = some (s.questions.get ⟨s.currentIndex, hlt⟩) := by
    rw [List.getElem?_eq_getElem hlt]
    simp [List.get_eq_getElem]
  have hdis : nextButtonDisabledV1 s = true := by
    have hno2 := hno
    simp only [List.get_eq_getElem] at hno2
    simp [nextButtonDisabledV1, hq, hno2]
  have heq : tryNextV1 s = s := by
    unfold tryNextV1
    rw [hdis]
    simp
  exact ⟨heq, by rw [heq, hstage], by rw [heq], by rw [heq]⟩

/-- Claim C2 witness: the concrete ANSWERING state with an empty answer map
does not advance. -/
theorem advance_rejected_without_answer_witness :
    sampleAnswering.stage = .ANSWERING ∧
    sampleAnswering.currentIndex < sampleAnswering.questions.length ∧
    tryNextV1 sampleAnswering = sampleAnswering :=
  ⟨rfl, by decide,
    (advance_rejected_without_answer sampleAnswering rfl (by decide) rfl).1⟩

/-- Claim C4: resetting from any state, in either controller variant, yields
the enumerated initial values: stage START, empty topic, no questions, empty
answer map, index 0, no result and no analysis, no error. -/
theorem resetApp_restores_initial (s : AppState) (p : P0State) :
    (resetAppV1 s).stage = .START ∧
    (resetAppV1 s).topic = "" ∧
    (resetAppV1 s).questions = [] ∧
    (resetAppV1 s).answers = [] ∧
    (resetAppV1 s).currentIndex = 0 ∧
    (resetAppV1 s).result = none ∧
    (resetAppV1 s).error = none ∧
    (resetAppP0 p).stage = .START ∧
    (resetAppP0 p).topic = "" ∧
    (resetAppP0 p).questions = [] ∧
    (resetAppP0 p).answers = [] ∧
    (resetAppP0 p).currentIndex = 0 ∧
    (resetAppP0 p).analysis = none ∧
    (resetAppP0 p).error = none :=
  ⟨rfl, rfl, rfl, rfl, rfl, rfl, rfl, rfl, rfl, rfl, rfl, rfl, rfl, rfl⟩

/-- One user round in ANSWERING: record an answer for the current question,
then press the (now enabled) next button. -/
def answerAndNextV1 (s : AppState) (opt : String) : AppState :=
  tryNextV1 (handleAnswerV1 s opt)

/-- Iterate answer-then-advance rounds over a list of chosen options. -/
def runAnswerRounds : AppState → List String → AppState
  | s, [] => s
  | s, o :: os => runAnswerRounds (answerAndNextV1 s o) os

/-- Inserting an answer makes it the one found for that id. -/
theorem lookupAnswer_insertAnswer (m : AnswerMap) (qid : Int) (v : String) :
    lookupAnswer (insertAnswer m qid v) qid = some v := by
  simp [lookupAnswer, insertAnswer]

/-- handleAnswer touches only the answers field. -/
theorem handleAnswer_frame (s : AppState) (opt : String) :
    (handleAnswerV1 s opt).stage = s.stage ∧
    (handleAnswerV1 s opt).currentIndex = s.currentIndex ∧
    (handleAnswerV1 s opt).questions = s.questions := by
  unfold handleAnswerV1
  split <;> exact ⟨rfl, rfl, rfl⟩

/-- The two branches of handleNext, made explicit. -/
theorem handleNext_branches (s : AppState) :
    ((s.currentIndex : Int) < (s.questions.length : Int) - 1 →
      handleNextV1 s = { s with currentIndex := s.currentIndex + 1 }) ∧
    (¬ (s.currentIndex : Int) < (s.questions.length : Int) - 1 →
      handleNextV1 s = finishAnsweringStartV1 s) := by
  constructor
  · intro h
    unfold handleNextV1
    rw [if_pos h]
  · intro h
    unfold handleNextV1
    rw [if_neg h]

/-- After recording a non-empty answer for the in-bounds current question the
next button is enabled. -/
theorem nextEnabled_after_answer (s : AppState) (opt : String)
    (hlt : s.currentIndex < s.questions.length) (hopt : opt ≠ "") :
    nextButtonDisabledV1 (handleAnswerV1 s opt) = false := by
  have hq : s.questions[s.currentIndex]? = some (s.questions.get ⟨s.currentIndex, hlt⟩) := by
    rw [List.getElem?_eq_getElem hlt]
    simp [List.get_eq_getElem]
  have h1 : handleAnswerV1 s opt =
      { s with answers :=
          insertAnswer s.answers (s.questions.get ⟨s.currentIndex, hlt⟩).id opt } := by
    unfold handleAnswerV1
    rw [hq]
  have hne : (opt == "") = false := by
    simp [hopt]
  rw [h1]
  simp [nextButtonDisabledV1, hq, lookupAnswer_insertAnswer, hne]

/-- With a non-empty answer recorded, the guarded round is exactly handleNext
after handleAnswer. -/
theorem answerAndNext_unfolds (s : AppState) (opt : String)
    (hlt : s.currentIndex < s.questions.length) (hopt : opt ≠ "") :
    answerAndNextV1 s opt = handleNextV1 (handleAnswerV1 s opt) := by
  unfold answerAndNextV1 tryNextV1
  rw [if_neg (by simp [nextEnabled_after_answer s opt hlt hopt])]

/-- A round strictly inside the question list increments the index, keeps
ANSWERING and keeps the questions. -/
theorem answerAndNext_mid (s : AppState) (opt : String) (hopt : opt ≠ "")
    (hmid : s.currentIndex + 1 < s.questions.length) :
    (answerAndNextV1 s opt).stage = s.stage ∧
    (answerAndNextV1 s opt).currentIndex = s.currentIndex + 1 ∧
    (answerAndNextV1 s opt).questions = s.questions := by
  have hlt : s.currentIndex < s.questions.length := by omega
  rw [answerAndNext_unfolds s opt hlt hopt]
  obtain ⟨hs, hi, hqs⟩ := handleAnswer_frame s opt
  have hc : ((handleAnswerV1 s opt).currentIndex : Int) <
      ((handleAnswerV1 s opt).questions.length : Int) - 1 := by
    rw [hi, hqs]
    omega
  rw [(handleNext_branches _).1 hc]
  exact ⟨hs, by rw [hi], hqs⟩

/-- A round at the last question moves to ANALYZING, keeping index and
questions. -/
theorem answerAndNext_last (s : AppState) (opt : String) (hopt : opt ≠ "")
    (hlt : s.currentIndex < s.questions.length)
    (hlast : s.currentIndex + 1 = s.questions.length) :
    (answerAndNextV1 s opt).stage = .ANALYZING ∧
    (answerAndNextV1 s opt).currentIndex = s.currentIndex ∧
    (answerAndNextV1 s opt).questions = s.questions := by
  rw [answerAndNext_unfolds s opt hlt hopt]
  obtain ⟨hs, hi, hqs⟩ := handleAnswer_frame s opt
  have hc : ¬ ((handleAnswerV1 s opt).currentIndex : Int) <
      ((handleAnswerV1 s opt).questions.length : Int) - 1 := by
    rw [hi, hqs]
    omega
  rw [(handleNext_branches _).2 hc]
  exact ⟨rfl, hi, hqs⟩

/-- Running one round per remaining question from ANSWERING ends in ANALYZING
at the last index, with the question list untouched. -/
theorem runAnswerRounds_full : ∀ (opts : List String) (s : AppState),
    s.stage = .ANSWERING →
    (∀ o ∈ opts, o ≠ "") →
    s.currentIndex + opts.length = s.questions.length →
    opts ≠ [] →
    (runAnswerRounds s opts).stage = .ANALYZING ∧
    (runAnswerRounds s opts).currentIndex = s.questions.length - 1 ∧
    (runAnswerRounds s opts).questions = s.questions := by
  intro opts
  induction opts with
  | nil =>
    intro s _ _ _ hne
    exact absurd rfl hne
  | cons o os ih =>
    intro s hstage hall hcount _
    have ho : o ≠ "" := hall o (List.mem_cons_self o os)
    cases os with
    | nil =>
      have hlast : s.currentIndex + 1 = s.questions.length := by
        simpa using hcount
      have hlt : s.currentIndex < s.questions.length := by omega
      obtain ⟨h1, h2, h3⟩ := answerAndNext_last s o ho hlt hlast
      refine ⟨h1, ?_, h3⟩
      show (answerAndNextV1 s o).currentIndex = s.questions.length - 1
      rw [h2]
      omega
    | cons o2 os2 =>
      have hmid : s.currentIndex + 1 < s.questions.length := by
        simp at hcount
        omega
      obtain ⟨h1, h2, h3⟩ := answerAndNext_mid s o ho hmid
      have ihx := ih (answerAndNextV1 s o) (h1.trans hstage)
        (fun x hx => hall x (List.mem_cons_of_mem _ hx))
        (by rw [h2, h3]; simp at hcount ⊢; omega)
        (by simp)
      show (runAnswerRounds (answerAndNextV1 s o) (o2 :: os2)).stage = .ANALYZING ∧
        (runAnswerRounds (answerAndNextV1 s o) (o2 :: os2)).currentIndex = s.questions.length - 1 ∧
        (runAnswerRounds (answerAndNextV1 s o) (o2 :: os2)).questions = s.questions
      refine ⟨ihx.1, ?_, ?_⟩
      · rw [ihx.2.1, h3]
      · rw [ihx.2.2, h3]

/-- After any strict prefix of the rounds the controller is still in
ANSWERING, at exactly the index equal to the rounds performed so far. -/
theorem runAnswerRounds_strict_prefixes : ∀ (opts : List String) (k : Nat) (s : AppState),
    s.stage = .ANSWERING →
    (∀ o ∈ opts, o ≠ "") →
    s.currentIndex + opts.length = s.questions.length →
    k < opts.length →
    (runAnswerRounds s (opts.take k)).stage = .ANSWERING ∧
    (runAnswerRounds s (opts.take k)).currentIndex = s.currentIndex + k ∧
    (runAnswerRounds s (opts.take k)).questions = s.questions := by
  intro opts
  induction opts with
  | nil =>
    intro k s _ _ _ hk
    simp at hk
  | cons o os ih =>
    intro k s hstage hall hcount hk
    cases k with
    | zero =>
      exact ⟨hstage, by simp [runAnswerRounds], rfl⟩
    | succ k2 =>
      have hk2 : k2 < os.length := by
        simp at hk
        omega
      have ho : o ≠ "" := hall o (List.mem_cons_self o os)
      have hmid : s.currentIndex + 1 < s.questions.length := by
        simp at hcount
        omega
      obtain ⟨h1, h2, h3⟩ := answerAndNext_mid s o ho hmid
      have ihx := ih k2 (answerAndNextV1 s o) (h1.trans hstage)
        (fun x hx => hall x (List.mem_cons_of_mem _ hx))
        (by rw [h2, h3]; simp at hcount ⊢; omega)
        hk2
      refine ⟨ihx.1, ?_, ?_⟩
      · show (runAnswerRounds (answerAndNextV1 s o) (os.take k2)).currentIndex
          = s.currentIndex + (k2 + 1)
        rw [ihx.2.1, h2]
        omega
      · show (runAnswerRounds (answerAndNextV1 s o) (os.take k2)).questions = s.questions
        rw [ihx.2.2, h3]

/-- Claim C3: from ANSWERING at index 0 over N questions (N at least 1),
answering the current question and advancing, N times, reaches ANALYZING after
exactly the N-th advance (every strict prefix of rounds is still in ANSWERING
at index equal to the number of rounds), the final index is N-1, and no
intermediate index ever exceeds N-1. -/
theorem repeated_advance_reaches_analyzing (s : AppState) (N : Nat)
    (opts : List String)
    (hstage : s.stage = .ANSWERING) (hidx : s.currentIndex = 0)
    (hlen : s.questions.length = N) (hN : 1 ≤ N)
    (hopts : opts.length = N) (hall : ∀ o ∈ opts, o ≠ "") :
    (runAnswerRounds s opts).stage = .ANALYZING ∧
    (runAnswerRounds s opts).currentIndex = N - 1 ∧
    (∀ k, k < N →
      (runAnswerRounds s (opts.take k)).stage = .ANSWERING ∧
      (runAnswerRounds s (opts.take k)).currentIndex = k) ∧
    (∀ k, k ≤ N → (runAnswerRounds s (opts.take k)).currentIndex ≤ N - 1) := by
  have hcount : s.currentIndex + opts.length = s.questions.length := by omega
  have hne : opts ≠ [] := by
    cases opts with
    | nil => simp at hopts; omega
    | cons a b => simp
  obtain ⟨hf1, hf2, hf3⟩ := runAnswerRounds_full opts s hstage hall hcount hne
  refine ⟨hf1, by rw [hf2, hlen], ?_, ?_⟩
  · intro k hk
    have hk2 : k < opts.length := by omega
    obtain ⟨hp1, hp2, hp3⟩ :=
      runAnswerRounds_strict_prefixes opts k s hstage hall hcount hk2
    exact ⟨hp1, by rw [hp2, hidx]; omega⟩
  · intro k hk
    by_cases hcase : k < N
    · obtain ⟨hp1, hp2, hp3⟩ :=
        runAnswerRounds_strict_prefixes opts k s hstage hall hcount (by omega)
      rw [hp2, hidx]
      omega
    · have hkN : k = N := by omega
      have htake : opts.take k = opts := by
        apply List.take_of_length_le
        omega
      rw [htake, hf2, hlen]

/-- Claim C3 witness: two questions, two rounds with concrete non-empty
answers, evaluated on the sample ANSWERING state. -/
theorem repeated_advance_reaches_analyzing_witness :
    sampleAnswering.stage = .ANSWERING ∧
    sampleAnswering.currentIndex = 0 ∧
    sampleAnswering.questions.length = 2 ∧
    1 ≤ 2 ∧
    (["a", "d"] : List String).length = 2 ∧
    (∀ o ∈ (["a", "d"] : List String), o ≠ "") ∧
    ((runAnswerRounds sampleAnswering ["a", "d"]).stage = .ANALYZING ∧
     (runAnswerRounds sampleAnswering ["a", "d"]).currentIndex = 2 - 1 ∧
     (∀ k, k < 2 →
       (runAnswerRounds sampleAnswering ((["a", "d"] : List String).take k)).stage = .ANSWERING ∧
       (runAnswerRounds sampleAnswering ((["a", "d"] : List String).take k)).currentIndex = k) ∧
     (∀ k, k ≤ 2 →
       (runAnswerRounds sampleAnswering ((["a", "d"] : List String).take k)).currentIndex ≤ 2 - 1)) :=
  ⟨rfl, rfl, rfl, by decide, rfl, by decide,
    repeated_advance_reaches_analyzing sampleAnswering 2 ["a", "d"]
      rfl rfl rfl (by decide) rfl (by decide)⟩

/-- A concrete START state with a non-blank topic and no questions yet. -/
def sampleStart : AppState := { initialAppState with topic := "t" }

/-- Claim C5: when the backend response text is present but is not valid JSON
(JSON.parse throws, modelled by the parse outcome none), generateQuestions
fails with the parse-class error instead of returning, and feeding that
failure to the controller moves it to START with that non-empty message while
the stored question list stays empty. -/
theorem malformed_response_to_start (apiKey responseText : Option String)
    (s : AppState)
    (hkey : isKeyMissingV1 apiKey = false)
    (htext : isFalsyText responseText = false)
    (htopic : (jsTrim s.topic == "") = false)
    (hqs : s.questions = []) :
    generateQuestionsV1 apiKey responseText none =
      .error (.parseError parseErrMsgV1) ∧
    (startDecisionProcessV1 s (.error (some parseErrMsgV1))).stage = .START ∧
    (startDecisionProcessV1 s (.error (some parseErrMsgV1))).error = some parseErrMsgV1 ∧
    parseErrMsgV1 ≠ "" ∧
    (startDecisionProcessV1 s (.error (some parseErrMsgV1))).questions = [] := by
  have hent : msgIsEntityNotFound (some parseErrMsgV1) = false := by decide
  have hmsg : (parseErrMsgV1 == "") = false := by decide
  have hstart : startDecisionProcessV1 s (.error (some parseErrMsgV1)) =
      { s with error := some parseErrMsgV1, stage := .START,
               loadingMessage := genLoadingMsgV1 } := by
    simp [startDecisionProcessV1, htopic, hent, msgOrDefault, hmsg]
  refine ⟨?_, ?_, ?_, by decide, ?_⟩
  · simp [generateQuestionsV1, hkey, htext]
  · rw [hstart]
  · rw [hstart]
  · rw [hstart]
    exact hqs

/-- Claim C5 witness: concrete key, concrete non-JSON text, concrete fresh
state. -/
theorem malformed_response_to_start_witness :
    isKeyMissingV1 (some "k") = false ∧
    isFalsyText (some "not json") = false ∧
    (jsTrim sampleStart.topic == "") = false ∧
    sampleStart.questions = [] ∧
    (generateQuestionsV1 (some "k") (some "not json") none =
       .error (.parseError parseErrMsgV1) ∧
     (startDecisionProcessV1 sampleStart (.error (some parseErrMsgV1))).stage = .START ∧
     (startDecisionProcessV1 sampleStart (.error (some parseErrMsgV1))).error = some parseErrMsgV1 ∧
     parseErrMsgV1 ≠ "" ∧
     (startDecisionProcessV1 sampleStart (.error (some parseErrMsgV1))).questions = []) :=
  ⟨by decide, rfl, by decide, rfl,
    malformed_response_to_start (some "k") (some "not json") sampleStart
      (by decide) rfl (by decide) rfl⟩

/-- Claim C10: every failure continuation of question generation (App.tsx
variant 1) or of analysis (App.tsx variant 1 and the part_000 variant) returns
to START with an error message set, leaving topic, question list, answer map
and current index exactly as they were before the failed request. -/
theorem failure_preserves_collected_data :
    (∀ (s : AppState) (m : Option String), (jsTrim s.topic == "") = false →
      (startDecisionProcessV1 s (.error m)).stage = .START ∧
      (startDecisionProcessV1 s (.error m)).topic = s.topic ∧
      (startDecisionProcessV1 s (.error m)).questions = s.questions ∧
      (startDecisionProcessV1 s (.error m)).answers = s.answers ∧
      (startDecisionProcessV1 s (.error m)).currentIndex = s.currentIndex ∧
      (startDecisionProcessV1 s (.error m)).error ≠ none) ∧
    (∀ (s : AppState) (m : Option String),
      (finishAnsweringV1 s (.error m)).stage = .START ∧
      (finishAnsweringV1 s (.error m)).topic = s.topic ∧
      (finishAnsweringV1 s (.error m)).questions = s.questions ∧
      (finishAnsweringV1 s (.error m)).answers = s.answers ∧
      (finishAnsweringV1 s (.error m)).currentIndex = s.currentIndex ∧
      (finishAnsweringV1 s (.error m)).error ≠ none) ∧
    (∀ (p : P0State) (m : Option String),
      (finishAnsweringP0 p (.error m)).stage = .START ∧
      (finishAnsweringP0 p (.error m)).topic = p.topic ∧
      (finishAnsweringP0 p (.error m)).questions = p.questions ∧
      (finishAnsweringP0 p (.error m)).answers = p.answers ∧
      (finishAnsweringP0 p (.error m)).currentIndex = p.currentIndex ∧
      (finishAnsweringP0 p (.error m)).error = some analyzeErrMsgP0) := by
  refine ⟨?_, ?_, ?_⟩
  · intro s m htopic
    by_cases hb : msgIsEntityNotFound m = true
    · simp [startDecisionProcessV1, htopic, hb]
    · rw [Bool.not_eq_true] at hb
      simp [startDecisionProcessV1, htopic, hb]
  · intro s m
    by_cases hb : msgIsEntityNotFound m = true
    · simp [finishAnsweringV1, finishAnsweringCompleteV1, finishAnsweringStartV1, hb]
    · rw [Bool.not_eq_true] at hb
      simp [finishAnsweringV1, finishAnsweringCompleteV1, finishAnsweringStartV1, hb]
  · intro p m
    simp [finishAnsweringP0, finishAnsweringCompleteP0, finishAnsweringStartP0]

/-- Claim C10 witness: the three failure continuations evaluated at concrete
states and messages. -/
theorem failure_preserves_collected_data_witness :
    (jsTrim sampleAnswering.topic == "") = false ∧
    (startDecisionProcessV1 sampleAnswering (.error (some "boom"))).questions
      = sampleAnswering.questions ∧
    (finishAnsweringV1 sampleAnswering (.error none)).answers
      = sampleAnswering.answers ∧
    (finishAnsweringP0 sampleAnsweringP0 (.error (some "x"))).topic
      = sampleAnsweringP0.topic :=
  ⟨by decide,
    (failure_preserves_collected_data.1 sampleAnswering (some "boom") (by decide)).2.2.1,
    (failure_preserves_collected_data.2.1 sampleAnswering none).2.2.2.1,
    (failure_preserves_collected_data.2.2 sampleAnsweringP0 (some "x")).2.1⟩

/-- Claim C9 counterexample: in the part_000 controller, an analysis failure
whose message is exactly the entity-not-found phrase is surfaced with the same
generic analysis-failure message as any other failure — not a distinct
retry-oriented one — although it does return to START. -/
theorem entity_not_found_generic_in_p0 :
    (finishAnsweringP0 sampleAnsweringP0
        (.error (some "Requested entity was not found."))).error
      = some analyzeErrMsgP0 ∧
    (finishAnsweringP0 sampleAnsweringP0
        (.error (some "Requested entity was not found."))).stage = .START :=
  ⟨rfl, rfl⟩

/-- Claim C9 amended: in the App.tsx controller an analysis failure whose
message includes the entity-not-found phrase surfaces the distinct key-retry
message — different from the generic analysis-failure message — and returns to
START; the part_000 variant controller also returns to START but surfaces its
single generic analysis message for every failure, this one included. -/
theorem entity_not_found_distinct_in_v1 (s : AppState) (m : String)
    (hm : strIncludes m entityNotFoundPat = true)
    (hne : (m == "") = false) :
    (finishAnsweringV1 s (.error (some m))).error = some keyRetryMsgV1 ∧
    keyRetryMsgV1 ≠ analyzeGenericMsgV1 ∧
    (finishAnsweringV1 s (.error (some m))).stage = .START ∧
    (∀ (p : P0State) (m2 : Option String),
      (finishAnsweringP0 p (.error m2)).stage = .START ∧
      (finishAnsweringP0 p (.error m2)).error = some analyzeErrMsgP0) := by
  have hent : msgIsEntityNotFound (some m) = true := by
    simp [msgIsEntityNotFound, bne, hne, hm]
  refine ⟨?_, by decide, ?_, ?_⟩
  · simp [finishAnsweringV1, finishAnsweringCompleteV1, finishAnsweringStartV1, hent]
  · simp [finishAnsweringV1, finishAnsweringCompleteV1, finishAnsweringStartV1, hent]
  · intro p m2
    simp [finishAnsweringP0, finishAnsweringCompleteP0, finishAnsweringStartP0]

/-- Claim C9 witness: the amended behavior at the exact entity-not-found
message on the concrete ANSWERING state. -/
theorem entity_not_found_distinct_in_v1_witness :
    strIncludes "Requested entity was not found." entityNotFoundPat = true ∧
    (("Requested entity was not found." : String) == "") = false ∧
    ((finishAnsweringV1 sampleAnswering
        (.error (some "Requested entity was not found."))).error = some keyRetryMsgV1 ∧
     keyRetryMsgV1 ≠ analyzeGenericMsgV1 ∧
     (finishAnsweringV1 sampleAnswering
        (.error (some "Requested entity was not found."))).stage = .START ∧
     (∀ (p : P0State) (m2 : Option String),
       (finishAnsweringP0 p (.error m2)).stage = .START ∧
       (finishAnsweringP0 p (.error m2)).error = some analyzeErrMsgP0)) :=
  ⟨by decide, by decide,
    entity_not_found_distinct_in_v1 sampleAnswering
      "Requested entity was not found." (by decide) (by decide)⟩

/-- Claim C6 counterexample: with a usable key and a response text that is
valid JSON but not an array of question objects (the JSON number 5), both
generateQuestions variants return the parsed value as-is instead of failing,
and the returned value violates the declared question-array shape. -/
theorem generateQuestions_returns_offshape_json :
    generateQuestionsV1 (some "k") (some "5") (some (Json.num 5)) = .ok (Json.num 5) ∧
    matchesDeclaredQuestionSchema (Json.num 5) = false ∧
    generateQuestionsV2 (some "k") (some "5") (some (Json.num 5)) = .ok (Json.num 5) := by
  refine ⟨?_, rfl, ?_⟩ <;> rfl

/-- Claim C6 amended: with a usable key, both generateQuestions variants fail
with the empty-response error exactly when the backend text is falsy and with
the parse error exactly when JSON.parse throws; any successfully parsed JSON
value is returned unchanged, with no client-side validation against the
declared schema. -/
theorem generateQuestions_error_modes (apiKey responseText : Option String)
    (parsed : Option Json) :
    (isKeyMissingV1 apiKey = false → isFalsyText responseText = true →
      generateQuestionsV1 apiKey responseText parsed =
        .error (.emptyResponse emptyRespMsgV1)) ∧
    (isKeyMissingV1 apiKey = false → isFalsyText responseText = false →
      generateQuestionsV1 apiKey responseText none =
        .error (.parseError parseErrMsgV1)) ∧
    (isKeyMissingV1 apiKey = false → isFalsyText responseText = false →
      ∀ j, generateQuestionsV1 apiKey responseText (some j) = .ok j) ∧
    (isKeyMissingV2 apiKey = false → isFalsyText responseText = true →
      generateQuestionsV2 apiKey responseText parsed =
        .error (.emptyResponse emptyRespMsgV2)) ∧
    (isKeyMissingV2 apiKey = false → isFalsyText responseText = false →
      generateQuestionsV2 apiKey responseText none =
        .error (.parseError parseErrMsgV2)) ∧
    (isKeyMissingV2 apiKey = false → isFalsyText responseText = false →
      ∀ j, generateQuestionsV2 apiKey responseText (some j) = .ok j) := by
  refine ⟨?_, ?_, ?_, ?_, ?_, ?_⟩ <;> intro h1 h2
  · simp [generateQuestionsV1, h1, h2]
  · simp [generateQuestionsV1, h1, h2]
  · intro j
    simp [generateQuestionsV1, h1, h2]
  · simp [generateQuestionsV2, h1, h2]
  · simp [generateQuestionsV2, h1, h2]
  · intro j
    simp [generateQuestionsV2, h1, h2]

/-- Claim C6 witness: the error modes evaluated at a concrete key, an absent
text, and a concrete parse failure. -/
theorem generateQuestions_error_modes_witness :
    isKeyMissingV1 (some "k") = false ∧
    isKeyMissingV2 (some "k") = false ∧
    isFalsyText (none : Option String) = true ∧
    isFalsyText (some "oops") = false ∧
    generateQuestionsV1 (some "k") none none = .error (.emptyResponse emptyRespMsgV1) ∧
    generateQuestionsV1 (some "k") (some "oops") none = .error (.parseError parseErrMsgV1) ∧
    generateQuestionsV2 (some "k") (some "oops") none = .error (.parseError parseErrMsgV2) :=
  ⟨by decide, by decide, rfl, rfl,
    (generateQuestions_error_modes (some "k") none none).1 (by decide) rfl,
    (generateQuestions_error_modes (some "k") (some "oops") none).2.1 (by decide) rfl,
    (generateQuestions_error_modes (some "k") (some "oops") none).2.2.2.2.1 (by decide) rfl⟩

/-- Claim C7 counterexample: with a usable key and a backend response carrying
no text, both analyzeDecision variants return the fallback string as a normal
value instead of failing with an empty-response error. -/
theorem analyzeDecision_substitutes_fallback :
    analyzeDecisionV1 (some "k") none = .ok analyzeFallback ∧
    analyzeDecisionV2 (some "k") none = .ok analyzeFallback := by
  constructor <;> rfl

/-- Claim C7 amended: analyzeDecision shares only the missing-credential
failure mode of generateQuestions — with an absent key (by the respective
variant's own guard) it fails with the missing-key error before the backend
call; but with a usable key and a response with no text it does not fail: it
resolves with the fallback string in place of a result. -/
theorem analyzeDecision_failure_modes (apiKey responseText : Option String) :
    (isKeyMissingV1 apiKey = true →
      analyzeDecisionV1 apiKey responseText = .error (.missingKey missingKeyMsgV1)) ∧
    (isKeyMissingV1 apiKey = false → isFalsyText responseText = true →
      analyzeDecisionV1 apiKey responseText = .ok analyzeFallback) ∧
    (isKeyMissingV2 apiKey = true →
      analyzeDecisionV2 apiKey responseText = .error (.missingKey missingKeyMsgV2)) ∧
    (isKeyMissingV2 apiKey = false → isFalsyText responseText = true →
      analyzeDecisionV2 apiKey responseText = .ok analyzeFallback) := by
  refine ⟨?_, ?_, ?_, ?_⟩
  · intro h1
    simp [analyzeDecisionV1, h1]
  · intro h1 h2
    cases responseText with
    | none => simp [analyzeDecisionV1, h1]
    | some t =>
      have ht : (t == "") = true := by simpa [isFalsyText] using h2
      simp [analyzeDecisionV1, h1, ht]
  · intro h1
    simp [analyzeDecisionV2, h1]
  · intro h1 h2
    cases responseText with
    | none => simp [analyzeDecisionV2, h1]
    | some t =>
      have ht : (t == "") = true := by simpa [isFalsyText] using h2
      simp [analyzeDecisionV2, h1, ht]

/-- Claim C7 witness: the missing-key failure and the empty-text fallback
evaluated at concrete credentials and responses. -/
theorem analyzeDecision_failure_modes_witness :
    isKeyMissingV1 (none : Option String) = true ∧
    isKeyMissingV1 (some "k") = false ∧
    isFalsyText (some "") = true ∧
    analyzeDecisionV1 none (some "x") = .error (.missingKey missingKeyMsgV1) ∧
    analyzeDecisionV1 (some "k") (some "") = .ok analyzeFallback ∧
    analyzeDecisionV2 (some "k") (some "") = .ok analyzeFallback :=
  ⟨rfl, by decide, rfl,
    (analyzeDecision_failure_modes none (some "x")).1 rfl,
    (analyzeDecision_failure_modes (some "k") (some "")).2.1 (by decide) rfl,
    (analyzeDecision_failure_modes (some "k") (some "")).2.2.2 (by decide) rfl⟩

/-- Claim C8 counterexample: the literal credential string undefined is absent
by the specified rule, yet variant 1's guard does not treat it as missing —
with it, generateQuestions and analyzeDecision of variant 1 proceed to the
backend and return normally instead of failing with a missing-credential
error. -/
theorem undefined_literal_passes_v1_guard :
    specAbsentCredential (some "undefined") = true ∧
    isKeyMissingV1 (some "undefined") = false ∧
    generateQuestionsV1 (some "undefined") (some "[]") (some (Json.arr []))
      = .ok (Json.arr []) ∧
    analyzeDecisionV1 (some "undefined") (some "text") = .ok "text" := by
  refine ⟨by decide, by decide, ?_, ?_⟩ <;> rfl

/-- Claim C8 amended: variant 2's guard (createAI) treats the credential as
absent exactly as the specified rule does — undefined, the literal string
undefined, or blank after trimming — and each variant fails all its requests
with its missing-credential error whenever its own guard reports the key
absent, before and independently of any backend response; variant 1's guard
(getAIInstance) omits the literal-undefined case, treating only an undefined
or blank-after-trimming credential as absent. -/
theorem credential_absence_guards (k : Option String) :
    isKeyMissingV2 k = specAbsentCredential k ∧
    (∀ (t : Option String) (p : Option Json), isKeyMissingV2 k = true →
      generateQuestionsV2 k t p = .error (.missingKey missingKeyMsgV2) ∧
      analyzeDecisionV2 k t = .error (.missingKey missingKeyMsgV2)) ∧
    (∀ (t : Option String) (p : Option Json), isKeyMissingV1 k = true →
      generateQuestionsV1 k t p = .error (.missingKey missingKeyMsgV1) ∧
      analyzeDecisionV1 k t = .error (.missingKey missingKeyMsgV1)) := by
  refine ⟨?_, ?_, ?_⟩
  · cases k with
    | none => rfl
    | some s =>
      simp only [isKeyMissingV2, specAbsentCredential]
      by_cases hs : s = ""
      · subst hs
        decide
      · have hb : (s == "") = false := by
          simp [hs]
        rw [hb, Bool.false_or]
  · intro t p h1
    constructor
    · simp [generateQuestionsV2, h1]
    · simp [analyzeDecisionV2, h1]
  · intro t p h1
    constructor
    · simp [generateQuestionsV1, h1]
    · simp [analyzeDecisionV1, h1]

/-- Claim C8 witness: the exactness of the variant-2 guard and the
missing-credential failures evaluated at concrete credentials. -/
theorem credential_absence_guards_witness :
    isKeyMissingV2 (some "undefined") = specAbsentCredential (some "undefined") ∧
    isKeyMissingV2 (some "  ") = true ∧
    generateQuestionsV2 (some "  ") (some "x") none
      = .error (.missingKey missingKeyMsgV2) ∧
    isKeyMissingV1 (none : Option String) = true ∧
    analyzeDecisionV1 none (some "x") = .error (.missingKey missingKeyMsgV1) :=
  ⟨(credential_absence_guards (some "undefined")).1, by decide,
    ((credential_absence_guards (some "  ")).2.1 (some "x") none (by decide)).1,
    rfl,
    ((credential_absence_guards none).2.2 (some "x") none rfl).2⟩
